import Mathlib

/-
Verification of the gradient synchronization and norm-computation subsystem
of neuronx_distributed (src/neuronx_distributed/parallel_layers/grads.py).

Shallow embedding conventions:
- tensors are lists of exact rationals (floating-point numerics idealized as ℚ);
- optional Python attributes ("shared", "tensor_model_parallel",
  "sequence_parallel_enabled") are `Option Bool` fields: `none` models a
  missing attribute;
- fallible code returns `Except PyError`;
- the collectives a call issues are recorded as an explicit trace, and the
  SPMD cross-rank semantics of an all-reduce is modelled by combining the
  per-rank local values (sum for a SUM reduction).
-/

set_option maxHeartbeats 1000000

namespace Grads

/-- Reduction operation of a collective call (torch.distributed.ReduceOp.SUM / MAX,
and xm.REDUCE_SUM for the torch_xla path). -/
inductive ReduceOp
  | sum
  | max
  deriving DecidableEq

/-- One collective call issued by `_allreduce_norm_across_parallel_groups`
(grads.py lines 58-84): an all-reduce over the world group, the
tensor-model-parallel group, the pipeline-model-parallel group, or the
explicit zero1 optimizer groups (the xm.all_reduce pin_layout path). -/
inductive Collective
  | worldAllReduce (op : ReduceOp)
  | tpAllReduce (op : ReduceOp)
  | ppAllReduce (op : ReduceOp)
  | zero1AllReduce (op : ReduceOp) (pinLayout : Bool)
  deriving DecidableEq

/-- The exceptions the embedded code can raise: the ValueError of grads.py
lines 53-56 (zero1_optimizer_groups without zero1_optimizer), Python's
ValueError for `max()` over an empty sequence (grads.py lines 117-118), and
the torch runtime error for `.max()` of an empty tensor. -/
inductive PyError
  | valueErrorZero1Groups
  | valueErrorEmptyMax
  | runtimeErrorEmptyTensor
  deriving DecidableEq

/-- A parameter as read by grads.py: an optional gradient tensor and the
dynamically probed attributes. `is_not_tp_duplicate` carries the verdict of
the external duplicate-ownership predicate for this parameter on the current
rank (see `param_is_not_tensor_parallel_duplicate`). -/
structure Param where
  grad : Option (List ℚ)
  shared : Option Bool
  tensor_model_parallel : Option Bool
  sequence_parallel_enabled : Option Bool
  is_not_tp_duplicate : Bool
  deriving DecidableEq

/-- Modelled from the spec: `param_is_not_tensor_parallel_duplicate`
(parallel_layers/layers.py, a file not under src/) is the external
duplicate-ownership predicate that reports whether the current rank's copy of
a replicated parameter is the designated non-duplicate owner; it is modelled
as an oracle bit carried on the parameter. -/
def param_is_not_tensor_parallel_duplicate (p : Param) : Bool :=
  p.is_not_tp_duplicate

/-- Modelled from the spec: the topology registry
(parallel_layers/parallel_state.py, a file not under src/) exposes the
tensor-parallel and pipeline-parallel sizes, whether the zero1 optimizer is
used, and the optional explicit zero1 optimizer groups; modelled as a plain
configuration record passed to each operation. -/
structure NormConfig where
  tpSize : ℕ
  ppSize : ℕ
  zero1 : Bool
  zero1Groups : Option (List (List ℕ))
  deriving DecidableEq

/-- The norm_type argument: the infinity symbol or a finite exponent p
(embedded as a natural number exponent; the code accepts any float). -/
inductive NormType
  | inf
  | fin (p : ℕ)
  deriving DecidableEq

/-- grads.py lines 25-26: `not hasattr(param, "shared") or not param.shared`. -/
def param_is_not_shared (p : Param) : Bool :=
  match p.shared with
  | none => true
  | some b => !b

/-- grads.py line 98: `hasattr(param, "tensor_model_parallel") and
param.tensor_model_parallel`. -/
def is_tp_param (p : Param) : Bool :=
  match p.tensor_model_parallel with
  | none => false
  | some b => b

/-- The bucket a parameter's gradient is put into by the loop of grads.py
lines 94-109. -/
inductive Bucket
  | excluded
  | partitioned
  | duplicated
  deriving DecidableEq

/-- grads.py lines 94-109: the per-parameter classification. A gradient goes
to `grads_for_norm` (partitioned) when `is_tp_param or (is_not_tp_duplicate
and not force_spmd)`, else to `grads_for_norm_tp_duplicated` when
`force_spmd`; parameters without a gradient or marked shared are excluded. -/
def classifyParam (forceSpmd : Bool) (p : Param) : Bucket :=
  match p.grad with
  | none => Bucket.excluded
  | some _ =>
    if param_is_not_shared p then
      if is_tp_param p || (param_is_not_tensor_parallel_duplicate p && !forceSpmd) then
        Bucket.partitioned
      else if forceSpmd then
        Bucket.duplicated
      else
        Bucket.excluded
    else
      Bucket.excluded

/-- The `grads_for_norm` list built by the loop of grads.py lines 94-109. -/
def grads_for_norm (forceSpmd : Bool) (params : List Param) : List (List ℚ) :=
  params.filterMap fun p =>
    match classifyParam forceSpmd p with
    | Bucket.partitioned => p.grad
    | _ => none

/-- The `grads_for_norm_tp_duplicated` list built by the loop of grads.py
lines 94-109. -/
def grads_for_norm_tp_duplicated (forceSpmd : Bool) (params : List Param) : List (List ℚ) :=
  params.filterMap fun p =>
    match classifyParam forceSpmd p with
    | Bucket.duplicated => p.grad
    | _ => none

/-- grads.py lines 58-84, `_allreduce_norm_across_parallel_groups`: the trace
of collective calls it issues. With zero1 and no explicit groups it
all-reduces over the world group; otherwise over the tensor-parallel group
(if its size exceeds 1), the pipeline-parallel group (if its size exceeds 1),
and, when explicit zero1 groups are present, an `xm.all_reduce(xm.REDUCE_SUM,
..., pin_layout=True)` whose operation is hard-coded to SUM at line 80
regardless of the `reduce_op` argument. -/
def allreduceNormAcrossParallelGroups (cfg : NormConfig) (op : ReduceOp) : List Collective :=
  if cfg.zero1 && cfg.zero1Groups.isNone then
    [Collective.worldAllReduce op]
  else
    (if cfg.tpSize > 1 then [Collective.tpAllReduce op] else []) ++
      (if cfg.ppSize > 1 then [Collective.ppAllReduce op] else []) ++
      (if cfg.zero1Groups.isSome then [Collective.zero1AllReduce ReduceOp.sum true] else [])

/-- Python's `max()` over a sequence: raises ValueError on an empty sequence. -/
def pyMax (xs : List ℚ) : Except PyError ℚ :=
  match xs with
  | [] => Except.error PyError.valueErrorEmptyMax
  | x :: rest => Except.ok (rest.foldl max x)

/-- `grad.abs().max()` for one gradient tensor: the maximum absolute entry
(torch raises on an empty tensor). -/
def tensorMaxAbs (g : List ℚ) : Except PyError ℚ :=
  match g with
  | [] => Except.error PyError.runtimeErrorEmptyTensor
  | x :: rest => Except.ok (rest.foldl (fun a y => max a |y|) |x|)

/-- Evaluate a fallible function over a list, stopping at the first error
(the evaluation order of a Python generator / loop). -/
def mapExcept {α β : Type} (f : α → Except PyError β) : List α → Except PyError (List β)
  | [] => Except.ok []
  | a :: rest =>
    match f a with
    | Except.error e => Except.error e
    | Except.ok b =>
      match mapExcept f rest with
      | Except.error e => Except.error e
      | Except.ok bs => Except.ok (b :: bs)

/-- `max(grad.abs().max() for grad in gs)` (grads.py lines 117-118): Python's
`max` over the generator of per-tensor maxima. -/
def maxAbsList (gs : List (List ℚ)) : Except PyError ℚ :=
  match mapExcept tensorMaxAbs gs with
  | Except.error e => Except.error e
  | Except.ok ms => pyMax ms

/-- `torch.norm(g, p) ** p`: summing the p-th powers of the absolute entries
(the outer `** p` cancels the p-norm's root exactly). -/
def tensorNormPowP (p : ℕ) (g : List ℚ) : ℚ :=
  (g.map fun x => |x| ^ p).sum

/-- grads.py lines 124-133: the local accumulator of the finite-p path.
`total_norm` starts at 0; under force_spmd the duplicated bucket's
`torch.norm(grad, p) ** p` values are accumulated and the partial total is
divided by the tensor-parallel size, then the partitioned bucket's values are
accumulated. -/
def finiteLocalTotal (p : ℕ) (tpSize : ℕ) (forceSpmd : Bool)
    (dup partitioned : List (List ℚ)) : ℚ :=
  let t1 : ℚ :=
    if forceSpmd then (dup.foldl (fun t g => t + tensorNormPowP p g) 0) / (tpSize : ℚ)
    else 0
  partitioned.foldl (fun t g => t + tensorNormPowP p g) t1

/-- grads.py lines 29-138, `get_grad_norm`, for one rank: force_spmd is
overridden to True for the infinity norm (lines 49-51), the
zero1_optimizer_groups / zero1_optimizer combination is validated (lines
53-56), the gradients are classified (lines 94-109), and the local
pre-reduction scalar is computed (lines 116-133). The returned pair is the
trace of collectives issued by `_allreduce_norm_across_parallel_groups`
together with this rank's local value entering that reduction. -/
def get_grad_norm (cfg : NormConfig) (normType : NormType) (forceSpmd : Bool)
    (params : List Param) : Except PyError (List Collective × ℚ) :=
  let fs := match normType with
    | NormType.inf => true
    | NormType.fin _ => forceSpmd
  if !cfg.zero1 && cfg.zero1Groups.isSome then
    Except.error PyError.valueErrorZero1Groups
  else
    let dup := grads_for_norm_tp_duplicated fs params
    let prt := grads_for_norm fs params
    match normType with
    | NormType.inf =>
      match maxAbsList dup with
      | Except.error e => Except.error e
      | Except.ok a =>
        match maxAbsList prt with
        | Except.error e => Except.error e
        | Except.ok b =>
          Except.ok (allreduceNormAcrossParallelGroups cfg ReduceOp.max, max a b)
    | NormType.fin p =>
      Except.ok (allreduceNormAcrossParallelGroups cfg ReduceOp.sum,
        finiteLocalTotal p cfg.tpSize fs dup prt)

/-- The collectives a `get_grad_norm` call issued: none when it raised. -/
def issuedCollectives (r : Except PyError (List Collective × ℚ)) : List Collective :=
  match r with
  | Except.error _ => []
  | Except.ok (t, _) => t

/-- SPMD semantics of the finite-p path across the ranks of the reduction
group (grads.py lines 135-136): every rank computes its local total, the SUM
all-reduce leaves the sum of all locals on every rank, and
`torch.pow(total_norm, 1.0 / norm_type)` is applied to that reduced value.
The 1/p-th root is the abstract function `root`, since it is irrational in
general. -/
def get_grad_norm_finite_all_ranks (root : ℚ → ℚ) (cfg : NormConfig) (p : ℕ)
    (forceSpmd : Bool) (ranksParams : List (List Param)) : Except PyError ℚ :=
  match mapExcept
      (fun ps => (get_grad_norm cfg (NormType.fin p) forceSpmd ps).map Prod.snd)
      ranksParams with
  | Except.error e => Except.error e
  | Except.ok locals => Except.ok (root locals.sum)

/-- grads.py line 187: `clip_coeff = max_norm / (total_norm + 1.0e-6)`. -/
def clipCoeff (maxNorm totalNorm : ℚ) : ℚ :=
  maxNorm / (totalNorm + 1 / 1000000)

/-- grads.py line 189: `torch.where(clip_coeff < 1, clip_coeff, 1.0)`, the
factor every present gradient is multiplied by. -/
def appliedClipFactor (maxNorm totalNorm : ℚ) : ℚ :=
  if clipCoeff maxNorm totalNorm < 1 then clipCoeff maxNorm totalNorm else 1

/-- grads.py lines 181-185: the gradients of every parameter whose grad is
present, with no filtering by shared or duplicate status. -/
def presentGrads (params : List Param) : List (List ℚ) :=
  params.filterMap fun p => p.grad

/-- grads.py lines 187-189: the in-place scaling pass, modelled as returning
the scaled gradients. -/
def clipScalePhase (maxNorm totalNorm : ℚ) (params : List Param) : List (List ℚ) :=
  (presentGrads params).map fun g => g.map fun x => x * appliedClipFactor maxNorm totalNorm

/-- grads.py lines 141-190, `clip_grad_norm`, instantiated at a finite
norm_type p: compute the total norm via `get_grad_norm` (across the ranks of
the reduction group), scale every present gradient of this rank by
`torch.where(clip_coeff < 1, clip_coeff, 1.0)`, and return the unclipped
total norm. -/
def clip_grad_norm (root : ℚ → ℚ) (cfg : NormConfig) (p : ℕ) (forceSpmd : Bool)
    (maxNorm : ℚ) (ranksParams : List (List Param)) (params : List Param) :
    Except PyError (ℚ × List (List ℚ)) :=
  match get_grad_norm_finite_all_ranks root cfg p forceSpmd ranksParams with
  | Except.error e => Except.error e
  | Except.ok total => Except.ok (total, clipScalePhase maxNorm total params)

/-- A gradient tensor as seen by `bucket_allreduce_gradients`: its dtype (an
opaque key), element count and element size. -/
structure GradTensor where
  dtype : ℕ
  numel : ℕ
  elementSize : ℕ
  deriving DecidableEq

/-- grads.py line 221: `grad.numel() * grad.element_size()`. -/
def gradBytes (g : GradTensor) : ℕ :=
  g.numel * g.elementSize

/-- grads.py lines 219-246: the bucketing loop over one dtype group, already
reversed, carrying the running byte total and the current bucket; returns the
sequence of flushed buckets (each flush one `xm.all_reduce("sum", ...)` over
the data-parallel group). An oversized gradient first flushes the accumulated
bucket, then is reduced alone; a gradient that overflows the cap causes the
bucket collected before it to be flushed and starts a new bucket; a final
non-empty bucket is flushed after the loop. -/
def bucketLoop (cap : ℕ) : List GradTensor → ℕ → List GradTensor → List (List GradTensor)
  | [], _total, bucket => if bucket.isEmpty then [] else [bucket]
  | g :: rest, total, bucket =>
    if gradBytes g > cap then
      (if bucket.isEmpty then [] else [bucket]) ++ [[g]] ++ bucketLoop cap rest 0 []
    else if total + gradBytes g > cap then
      [bucket] ++ bucketLoop cap rest (gradBytes g) [g]
    else
      bucketLoop cap rest (total + gradBytes g) (bucket ++ [g])

/-- grads.py line 214: the gradients of one dtype group are processed in
reverse of the input order. -/
def bucketFlushes (cap : ℕ) (grads : List GradTensor) : List (List GradTensor) :=
  bucketLoop cap grads.reverse 0 []

/-- grads.py lines 200-205: the dtype keys in order of first occurrence (a
Python dict preserves insertion order). -/
def dtypeKeys (gs : List GradTensor) : List ℕ :=
  gs.foldl (fun acc g => if g.dtype ∈ acc then acc else acc ++ [g.dtype]) []

/-- grads.py lines 193-246, `bucket_allreduce_gradients`: group the gradients
by dtype, then run the bucketing loop on each group in reversed order;
returns the concatenated sequence of flushed buckets. The in-place division
by the data-parallel size (line 220) does not change any byte size and is
omitted from the flush-order model. -/
def bucket_allreduce_gradients (cap : ℕ) (gs : List GradTensor) : List (List GradTensor) :=
  ((dtypeKeys gs).map fun t => bucketFlushes cap (gs.filter fun g => g.dtype == t)).flatten

/-- grads.py lines 259-261: a parameter is picked up by the sequence-parallel
reducer when its grad is present and `getattr(p, "sequence_parallel_enabled",
False)` holds. -/
def seqParamSelected (p : Param) : Bool :=
  p.grad.isSome &&
    (match p.sequence_parallel_enabled with
     | none => false
     | some b => b)

/-- grads.py lines 249-264, `allreduce_sequence_parallel_gradients`: the
gradients collected from the optimizer's parameter groups that the reducer
hands to `reduce_from_tensor_model_parallel_region` (one collective per
gradient; the reduction itself is external to grads.py). -/
def allreduce_sequence_parallel_gradients (paramGroups : List (List Param)) : List (List ℚ) :=
  (paramGroups.flatten.filter seqParamSelected).filterMap fun p => p.grad

/-- Concrete topologies and parameters used by the concrete instances. -/
def cfg1 : NormConfig := ⟨1, 1, false, none⟩

def cfgTp2 : NormConfig := ⟨2, 1, false, none⟩

def cfgZero1Groups : NormConfig := ⟨1, 1, true, some [[0, 1]]⟩

/-- A replicated (non-tensor-parallel, non-shared) parameter holding the
single gradient value v on this rank. -/
def replParam (v : ℚ) : Param := ⟨some [v], none, none, none, false⟩

/-- A tensor-model-parallel parameter holding the single gradient value v. -/
def tpParam (v : ℚ) : Param := ⟨some [v], none, some true, none, true⟩


/-! Helper lemmas shared by the claim theorems. -/

theorem foldl_add_tensorNorm (p : ℕ) (xs : List (List ℚ)) (a : ℚ) :
    xs.foldl (fun t g => t + tensorNormPowP p g) a = a + (xs.map (tensorNormPowP p)).sum := by
  induction xs generalizing a with
  | nil => simp
  | cons x xs ih => simp [ih]; ring

theorem tensorMaxAbs_error_eq (g : List ℚ) (e : PyError)
    (h : tensorMaxAbs g = Except.error e) : e = PyError.runtimeErrorEmptyTensor := by
  cases g with
  | nil => simpa [tensorMaxAbs] using h.symm
  | cons x rest => simp [tensorMaxAbs] at h

theorem mapExcept_tensorMaxAbs_error (gs : List (List ℚ)) (e : PyError)
    (h : mapExcept tensorMaxAbs gs = Except.error e) : e = PyError.runtimeErrorEmptyTensor := by
  induction gs with
  | nil => simp [mapExcept] at h
  | cons g gs ih =>
    rw [mapExcept] at h
    cases hg : tensorMaxAbs g with
    | error e0 =>
      rw [hg] at h
      cases h
      exact tensorMaxAbs_error_eq g e hg
    | ok m =>
      rw [hg] at h
      cases hrest : mapExcept tensorMaxAbs gs with
      | error e1 =>
        rw [hrest] at h
        cases h
        exact ih hrest
      | ok ms => rw [hrest] at h; cases h

theorem maxAbsList_ne_zero1_error (gs : List (List ℚ)) :
    maxAbsList gs ≠ Except.error PyError.valueErrorZero1Groups := by
  intro h
  rw [maxAbsList] at h
  cases hm : mapExcept tensorMaxAbs gs with
  | error e =>
    rw [hm] at h
    cases h
    exact absurd (mapExcept_tensorMaxAbs_error gs _ hm) (by simp)
  | ok ms =>
    rw [hm] at h
    cases ms with
    | nil => simp [pyMax] at h
    | cons x rest => simp [pyMax] at h

theorem get_grad_norm_no_zero1_error (cfg : NormConfig) (nt : NormType) (spmd : Bool)
    (params : List Param) (hv : (!cfg.zero1 && cfg.zero1Groups.isSome) = false) :
    get_grad_norm cfg nt spmd params ≠ Except.error PyError.valueErrorZero1Groups := by
  intro h
  rw [get_grad_norm.eq_def] at h
  rw [hv] at h
  simp only [Bool.false_eq_true, if_false] at h
  cases nt with
  | fin p => simp at h
  | inf =>
    simp only at h
    cases hd : maxAbsList (grads_for_norm_tp_duplicated true params) with
    | error e =>
      rw [hd] at h
      cases h
      exact maxAbsList_ne_zero1_error _ hd
    | ok a =>
      rw [hd] at h
      cases hp : maxAbsList (grads_for_norm true params) with
      | error e =>
        rw [hp] at h
        cases h
        exact maxAbsList_ne_zero1_error _ hp
      | ok b => rw [hp] at h; cases h



/-- C1: with norm_type infinity, zero1_optimizer true and explicit
zero1_optimizer_groups supplied, the collective issued over those groups by
`_allreduce_norm_across_parallel_groups` is a SUM reduction (xm.REDUCE_SUM is
hard-coded at grads.py line 80), not the MAX reduction the claim states: at
the concrete input below the whole trace is one zero1-group all-reduce with
operation SUM, and no MAX reduction over the zero1 groups is issued at all,
so the returned scalar is the cross-rank SUM of the per-rank maxima rather
than their maximum. -/
theorem c1_zero1_groups_inf_path_issues_sum_not_max :
    get_grad_norm cfgZero1Groups NormType.inf true [replParam 1, tpParam 1] =
      Except.ok ([Collective.zero1AllReduce ReduceOp.sum true], 1) ∧
    Collective.zero1AllReduce ReduceOp.max true ∉
      issuedCollectives (get_grad_norm cfgZero1Groups NormType.inf true [replParam 1, tpParam 1]) ∧
    ReduceOp.sum ≠ ReduceOp.max := by
  refine ⟨by rfl, ?_, by simp⟩
  intro h
  simp only [show get_grad_norm cfgZero1Groups NormType.inf true [replParam 1, tpParam 1] =
      Except.ok ([Collective.zero1AllReduce ReduceOp.sum true], 1) from rfl,
    issuedCollectives] at h
  simp at h

/-- C5: for norm_type infinity, `get_grad_norm` forces force_spmd on (grads.py
lines 49-51): the call with force_spmd requested off is identical, collective
trace, classification and value alike, to the call with force_spmd on. -/
theorem c5_inf_norm_forces_spmd (cfg : NormConfig) (params : List Param) :
    get_grad_norm cfg NormType.inf false params = get_grad_norm cfg NormType.inf true params := by
  rfl

/-- C5 witness at a concrete input. -/
theorem c5_inf_norm_forces_spmd_witness :
    get_grad_norm cfg1 NormType.inf false [replParam 1, tpParam 1] =
      get_grad_norm cfg1 NormType.inf true [replParam 1, tpParam 1] :=
  c5_inf_norm_forces_spmd cfg1 [replParam 1, tpParam 1]

/-- C6: calling `get_grad_norm` with zero1_optimizer false while
zero1_optimizer_groups is supplied raises the ValueError of grads.py lines
53-56 before anything else: the result is that error, no collective is
issued, and `clip_grad_norm` (which obtains its norm from `get_grad_norm`)
fails with the same error. -/
theorem c6_zero1_groups_without_zero1_raises (cfg : NormConfig) (nt : NormType) (spmd : Bool)
    (params : List Param) (gs : List (List ℕ))
    (hz : cfg.zero1 = false) (hg : cfg.zero1Groups = some gs) :
    get_grad_norm cfg nt spmd params = Except.error PyError.valueErrorZero1Groups ∧
    issuedCollectives (get_grad_norm cfg nt spmd params) = [] ∧
    ∀ (root : ℚ → ℚ) (p : ℕ) (maxNorm : ℚ) (r : List Param) (rs : List (List Param))
      (myParams : List Param),
      clip_grad_norm root cfg p spmd maxNorm (r :: rs) myParams =
        Except.error PyError.valueErrorZero1Groups := by
  have herr : get_grad_norm cfg nt spmd params = Except.error PyError.valueErrorZero1Groups := by
    rw [get_grad_norm.eq_def]
    simp [hz, hg]
  refine ⟨herr, by rw [herr]; rfl, ?_⟩
  intro root p maxNorm r rs myParams
  have herr2 : get_grad_norm cfg (NormType.fin p) spmd r =
      Except.error PyError.valueErrorZero1Groups := by
    rw [get_grad_norm.eq_def]
    simp [hz, hg]
  rw [clip_grad_norm, get_grad_norm_finite_all_ranks, mapExcept, herr2]
  rfl

/-- C6 witness at a concrete input: tp = pp = 1, zero1 off, explicit groups
[[0, 1]] supplied. -/
theorem c6_zero1_groups_without_zero1_raises_witness :
    get_grad_norm ⟨1, 1, false, some [[0, 1]]⟩ NormType.inf true [replParam 1] =
      Except.error PyError.valueErrorZero1Groups :=
  (c6_zero1_groups_without_zero1_raises ⟨1, 1, false, some [[0, 1]]⟩ NormType.inf true
    [replParam 1] [[0, 1]] rfl rfl).1

/-- C9: the validation of grads.py lines 53-56 tests `is not None`, not
emptiness: with zero1_optimizer false, every non-None zero1_optimizer_groups
value, the empty list of groups included, raises the ValueError, while the
value None never does. -/
theorem c9_validation_tests_nullness_not_emptiness (cfg : NormConfig) (nt : NormType)
    (spmd : Bool) (params : List Param) (hz : cfg.zero1 = false) :
    (∀ gs, cfg.zero1Groups = some gs →
      get_grad_norm cfg nt spmd params = Except.error PyError.valueErrorZero1Groups) ∧
    (cfg.zero1Groups = none →
      get_grad_norm cfg nt spmd params ≠ Except.error PyError.valueErrorZero1Groups) := by
  constructor
  · intro gs hg
    rw [get_grad_norm.eq_def]
    simp [hz, hg]
  · intro hg
    exact get_grad_norm_no_zero1_error cfg nt spmd params (by simp [hz, hg])

/-- C9 witness: the empty list of groups (non-None) raises; None does not. -/
theorem c9_validation_tests_nullness_not_emptiness_witness :
    get_grad_norm ⟨1, 1, false, some []⟩ NormType.inf true [] =
      Except.error PyError.valueErrorZero1Groups ∧
    get_grad_norm cfg1 NormType.inf true [] ≠ Except.error PyError.valueErrorZero1Groups :=
  ⟨(c9_validation_tests_nullness_not_emptiness ⟨1, 1, false, some []⟩ NormType.inf true []
      rfl).1 [] rfl,
   (c9_validation_tests_nullness_not_emptiness cfg1 NormType.inf true [] rfl).2 rfl⟩



/-- C4: the classification of grads.py lines 94-109 puts each parameter's
gradient in exactly one bucket: a parameter without gradient or marked shared
is excluded (and, being excluded, contributes to neither norm bucket, so a
shared parameter contributes zero to the norm whatever its gradient); the
partitioned bucket `grads_for_norm` is hit exactly when the parameter is
flagged tensor-model-parallel or (force_spmd off and the parameter not a
tensor-parallel duplicate); the duplicated bucket
`grads_for_norm_tp_duplicated` exactly when force_spmd is on and the
parameter is not tensor-model-parallel. -/
theorem c4_classifier_buckets (spmd : Bool) (p : Param) (params : List Param) :
    ((p.grad = none ∨ p.shared = some true) → classifyParam spmd p = Bucket.excluded) ∧
    (classifyParam spmd p = Bucket.partitioned ↔
      p.grad.isSome = true ∧ param_is_not_shared p = true ∧
        (is_tp_param p = true ∨
          (spmd = false ∧ param_is_not_tensor_parallel_duplicate p = true))) ∧
    (classifyParam spmd p = Bucket.duplicated ↔
      p.grad.isSome = true ∧ param_is_not_shared p = true ∧
        spmd = true ∧ is_tp_param p = false) ∧
    (p.shared = some true →
      grads_for_norm spmd (p :: params) = grads_for_norm spmd params ∧
      grads_for_norm_tp_duplicated spmd (p :: params) =
        grads_for_norm_tp_duplicated spmd params) := by
  have hex : p.shared = some true → classifyParam spmd p = Bucket.excluded := by
    intro h
    rw [classifyParam.eq_def]
    cases hg : p.grad <;> simp [param_is_not_shared, h]
  refine ⟨?_, ?_, ?_, ?_⟩
  · rintro (h | h)
    · rw [classifyParam.eq_def, h]
    · exact hex h
  · rw [classifyParam.eq_def]
    cases hg : p.grad with
    | none => simp
    | some g =>
      simp only [Option.isSome_some, true_and]
      cases hA : param_is_not_shared p <;> cases hB : is_tp_param p <;>
        cases hC : param_is_not_tensor_parallel_duplicate p <;> cases spmd <;>
        simp [hA, hB, hC]
  · rw [classifyParam.eq_def]
    cases hg : p.grad with
    | none => simp
    | some g =>
      simp only [Option.isSome_some, true_and]
      cases hA : param_is_not_shared p <;> cases hB : is_tp_param p <;>
        cases hC : param_is_not_tensor_parallel_duplicate p <;> cases spmd <;>
        simp [hA, hB, hC]
  · intro h
    constructor <;>
      simp [grads_for_norm, grads_for_norm_tp_duplicated, List.filterMap_cons, hex h]

/-- C4 witness: a shared parameter with a large gradient is excluded. -/
theorem c4_classifier_buckets_witness :
    classifyParam true ⟨some [1000], some true, none, none, true⟩ = Bucket.excluded :=
  (c4_classifier_buckets true ⟨some [1000], some true, none, none, true⟩ []).1 (Or.inr rfl)

/-- C8: inputs that pass the configuration validation can still make the
infinity-norm path of `get_grad_norm` raise: whenever either classified
bucket is empty the Python `max()` over the empty generator (grads.py lines
117-118) fails, so the path is total only when both buckets are non-empty;
concretely, a parameter list whose only gradient belongs to a
tensor-model-parallel parameter leaves the duplicated bucket empty and the
call returns the empty-sequence ValueError instead of a norm. -/
theorem c8_inf_norm_empty_bucket_raises (cfg : NormConfig) (spmd : Bool) (params : List Param)
    (hv : (!cfg.zero1 && cfg.zero1Groups.isSome) = false)
    (he : grads_for_norm_tp_duplicated true params = [] ∨ grads_for_norm true params = []) :
    (∃ e, get_grad_norm cfg NormType.inf spmd params = Except.error e) ∧
    get_grad_norm cfg1 NormType.inf true [tpParam 1] =
      Except.error PyError.valueErrorEmptyMax := by
  refine ⟨?_, by rfl⟩
  rw [get_grad_norm.eq_def]
  simp only [hv, Bool.false_eq_true, if_false]
  rcases he with h | h
  · rw [h]
    exact ⟨PyError.valueErrorEmptyMax, rfl⟩
  · cases hd : maxAbsList (grads_for_norm_tp_duplicated true params) with
    | error e => exact ⟨e, by simp [hd]⟩
    | ok a =>
      rw [h]
      exact ⟨PyError.valueErrorEmptyMax, by simp [hd]; rfl⟩

/-- C8 witness: every parameter tensor-model-parallel, so the duplicated
bucket is empty, with a valid configuration. -/
theorem c8_inf_norm_empty_bucket_raises_witness :
    (∃ e, get_grad_norm cfg1 NormType.inf true [tpParam 1] = Except.error e) ∧
    get_grad_norm cfg1 NormType.inf true [tpParam 1] =
      Except.error PyError.valueErrorEmptyMax :=
  c8_inf_norm_empty_bucket_raises cfg1 true [tpParam 1] (by rfl) (Or.inl (by rfl))

/-- C10: a missing metadata attribute defaults to false. A parameter lacking
"shared" is treated as not shared and classified exactly as if shared were
false; one lacking "tensor_model_parallel" is treated as not tensor-parallel
and classified exactly as if the flag were false; one lacking
"sequence_parallel_enabled" is not selected by the sequence-parallel reducer,
exactly as if the flag were false. -/
theorem c10_missing_attributes_default_false (p : Param) (spmd : Bool) :
    param_is_not_shared { p with shared := none } = true ∧
    classifyParam spmd { p with shared := none } =
      classifyParam spmd { p with shared := some false } ∧
    is_tp_param { p with tensor_model_parallel := none } = false ∧
    classifyParam spmd { p with tensor_model_parallel := none } =
      classifyParam spmd { p with tensor_model_parallel := some false } ∧
    seqParamSelected { p with sequence_parallel_enabled := none } = false ∧
    allreduce_sequence_parallel_gradients [[{ p with sequence_parallel_enabled := none }]] =
      allreduce_sequence_parallel_gradients [[{ p with sequence_parallel_enabled := some false }]] := by
  obtain ⟨g, sh, tp, se, d⟩ := p
  refine ⟨rfl, ?_, rfl, ?_, ?_, ?_⟩ <;> cases g <;> rfl

/-- C10 witness at a concrete parameter with every attribute missing. -/
theorem c10_missing_attributes_default_false_witness :
    param_is_not_shared ⟨some [7], none, none, none, true⟩ = true ∧
    is_tp_param ⟨some [7], none, none, none, true⟩ = false ∧
    seqParamSelected ⟨some [7], none, none, none, true⟩ = false :=
  ⟨(c10_missing_attributes_default_false ⟨some [7], none, none, none, true⟩ true).1,
   (c10_missing_attributes_default_false ⟨some [7], none, none, none, true⟩ true).2.2.1,
   (c10_missing_attributes_default_false ⟨some [7], none, none, none, true⟩ true).2.2.2.2.1⟩



theorem bucketLoop_flatten (cap : ℕ) (l : List GradTensor) :
    ∀ (total : ℕ) (bucket : List GradTensor),
      (bucketLoop cap l total bucket).flatten = bucket ++ l := by
  induction l with
  | nil =>
    intro total bucket
    cases bucket <;> simp [bucketLoop]
  | cons g rest ih =>
    intro total bucket
    rw [bucketLoop]
    by_cases h1 : gradBytes g > cap
    · rw [if_pos h1]
      cases bucket <;> simp [ih]
    · rw [if_neg h1]
      by_cases h2 : total + gradBytes g > cap
      · rw [if_pos h2]
        simp [ih]
      · rw [if_neg h2]
        simp [ih]

theorem bucketFlushes_flatten (cap : ℕ) (gs : List GradTensor) :
    (bucketFlushes cap gs).flatten = gs.reverse := by
  rw [bucketFlushes, bucketLoop_flatten]
  rfl

theorem dtypeKeys_foldl_mem (dt : ℕ) (gs : List GradTensor) :
    ∀ acc : List ℕ, (∀ g ∈ gs, g.dtype = dt) → dt ∈ acc →
      gs.foldl (fun acc g => if g.dtype ∈ acc then acc else acc ++ [g.dtype]) acc = acc := by
  induction gs with
  | nil => intro acc _ _; rfl
  | cons g rest ih =>
    intro acc h hmem
    have hg : g.dtype = dt := h g (by simp)
    simp only [List.foldl_cons, hg, if_pos hmem]
    exact ih acc (fun x hx => h x (by simp [hx])) hmem

theorem dtypeKeys_single (gs : List GradTensor) (dt : ℕ)
    (h : ∀ g ∈ gs, g.dtype = dt) (hne : gs ≠ []) : dtypeKeys gs = [dt] := by
  cases gs with
  | nil => exact absurd rfl hne
  | cons g rest =>
    have hg : g.dtype = dt := h g (by simp)
    rw [dtypeKeys]
    have hstep :
        List.foldl (fun acc g => if g.dtype ∈ acc then acc else acc ++ [g.dtype]) [] (g :: rest) =
          List.foldl (fun acc g => if g.dtype ∈ acc then acc else acc ++ [g.dtype]) [dt] rest := by
      simp [hg]
    rw [hstep]
    exact dtypeKeys_foldl_mem dt rest [dt]
      (fun x hx => h x (List.mem_cons_of_mem g hx)) (by simp)

/-- Gradient tensors of the bucket-ordering example: mb megabytes of dtype 0. -/
def gradMB (mb : ℕ) : GradTensor := ⟨0, mb * 1024 * 1024, 1⟩

/-- The default 512 MiB bucket capacity in bytes. -/
def cap512 : ℕ := 512 * 1024 * 1024

/-- C3: on the single-dtype list [g1(100MB), g2(300MB), g3(200MB), g4(600MB)]
with a 512MB cap, `bucket_allreduce_gradients` processes in reversed input
order and flushes exactly [g4] alone (oversized), then [g3, g2] (flushed when
g1 overflows the bucket), then [g1]; and in general, for any single-dtype
input, the concatenation of the flushed buckets is exactly the reversed input
list, so every flush respects strict reverse-input ordering. -/
theorem c3_bucket_flush_reverse_order :
    bucket_allreduce_gradients cap512 [gradMB 100, gradMB 300, gradMB 200, gradMB 600] =
      [[gradMB 600], [gradMB 200, gradMB 300], [gradMB 100]] ∧
    ∀ (cap : ℕ) (gs : List GradTensor) (dt : ℕ), (∀ g ∈ gs, g.dtype = dt) →
      (bucket_allreduce_gradients cap gs).flatten = gs.reverse := by
  refine ⟨by rfl, ?_⟩
  intro cap gs dt h
  by_cases hne : gs = []
  · subst hne; rfl
  · rw [bucket_allreduce_gradients, dtypeKeys_single gs dt h hne]
    have hfilter : (gs.filter fun g => g.dtype == dt) = gs := by
      rw [List.filter_eq_self]
      intro a ha
      simp [h a ha]
    simp [hfilter, bucketFlushes_flatten]

/-- C3 witness: the concrete list is single-dtype and its flushes concatenate
to the reversed input. -/
theorem c3_bucket_flush_reverse_order_witness :
    (bucket_allreduce_gradients cap512
        [gradMB 100, gradMB 300, gradMB 200, gradMB 600]).flatten =
      [gradMB 100, gradMB 300, gradMB 200, gradMB 600].reverse :=
  (c3_bucket_flush_reverse_order).2 cap512
    [gradMB 100, gradMB 300, gradMB 200, gradMB 600] 0 (by decide)



/-- C2: the finite-p path with force_spmd on computes, per rank, the sum of
`torch.norm(grad, p) ** p` over the duplicated bucket divided by the
tensor-parallel size, plus the same sum over the partitioned bucket; the
collective trace is a SUM reduction over the selected groups; across the
ranks of the reduction group the result is the 1/p-th root applied to the SUM
of the per-rank locals (root extraction after all cross-group reduction,
never before); and for tensor-parallel degree 2 with an identical replicated
gradient v on each of the two ranks, the post-reduction pre-root value is
v^2, not 2 * v^2. -/
theorem c2_finite_norm_spmd_compensation (root : ℚ → ℚ) (cfg : NormConfig) (p : ℕ)
    (params : List Param) (ranks : List (List Param)) (v : ℚ) :
    ((!cfg.zero1 && cfg.zero1Groups.isSome) = false →
      get_grad_norm cfg (NormType.fin p) true params =
        Except.ok (allreduceNormAcrossParallelGroups cfg ReduceOp.sum,
          ((grads_for_norm_tp_duplicated true params).map (tensorNormPowP p)).sum /
              (cfg.tpSize : ℚ) +
            ((grads_for_norm true params).map (tensorNormPowP p)).sum)) ∧
    get_grad_norm_finite_all_ranks root cfg p true ranks =
      (mapExcept (fun ps => (get_grad_norm cfg (NormType.fin p) true ps).map Prod.snd)
          ranks).map (fun locals => root locals.sum) ∧
    get_grad_norm_finite_all_ranks root cfgTp2 2 true [[replParam v], [replParam v]] =
      Except.ok (root (v ^ 2)) := by
  refine ⟨?_, ?_, ?_⟩
  · intro hv
    rw [get_grad_norm.eq_def]
    simp only [hv, Bool.false_eq_true, if_false]
    rw [finiteLocalTotal]
    simp [foldl_add_tensorNorm]
  · rw [get_grad_norm_finite_all_ranks]
    cases hm : mapExcept
        (fun ps => (get_grad_norm cfg (NormType.fin p) true ps).map Prod.snd) ranks with
    | error e => simp [Except.map]
    | ok locals => simp [Except.map]
  · have hl : (get_grad_norm cfgTp2 (NormType.fin 2) true [replParam v]).map Prod.snd =
        Except.ok (v ^ 2 / 2) := by
      rw [get_grad_norm.eq_def]
      simp [cfgTp2, replParam, grads_for_norm, grads_for_norm_tp_duplicated, classifyParam,
        param_is_not_shared, is_tp_param, param_is_not_tensor_parallel_duplicate,
        finiteLocalTotal, tensorNormPowP, Except.map, sq_abs]
    have harg : v ^ 2 / 2 + (v ^ 2 / 2 + 0) = v ^ 2 := by ring
    rw [get_grad_norm_finite_all_ranks]
    simp [mapExcept, hl, harg]

/-- C2 witness: tensor-parallel degree 2, the replicated gradient value 3 on
each rank, exponent 2: the configuration is valid, the local value is
(0 + 3^2)/2 + 0 = 9/2 and the cross-rank result is the root of 9. -/
theorem c2_finite_norm_spmd_compensation_witness :
    (!cfgTp2.zero1 && cfgTp2.zero1Groups.isSome) = false ∧
    get_grad_norm cfgTp2 (NormType.fin 2) true [replParam 3] =
      Except.ok (allreduceNormAcrossParallelGroups cfgTp2 ReduceOp.sum,
        ((grads_for_norm_tp_duplicated true [replParam 3]).map (tensorNormPowP 2)).sum /
            (cfgTp2.tpSize : ℚ) +
          ((grads_for_norm true [replParam 3]).map (tensorNormPowP 2)).sum) ∧
    get_grad_norm_finite_all_ranks id cfgTp2 2 true [[replParam 3], [replParam 3]] =
      Except.ok (id ((3 : ℚ) ^ 2)) :=
  ⟨rfl,
   (c2_finite_norm_spmd_compensation id cfgTp2 2 [replParam 3] [] 3).1 rfl,
   (c2_finite_norm_spmd_compensation id cfgTp2 2 [replParam 3] [] 3).2.2⟩



/-- C7 counterexample: with norm_type 1 on a single rank (tp = pp = 1, so the
1/1-th root is the identity), max_norm = 1 and a single gradient [1], the
total norm equals max_norm exactly, yet the clip coefficient is
1 / (1 + 1e-6) = 1000000/1000001 < 1, so the gradient is scaled and changed:
the claim's consequence "total_norm <= max_norm implies every gradient is
unchanged" is false at this input. -/
theorem c7_clip_at_equal_norm_still_scales :
    clip_grad_norm id cfg1 1 true 1 [[replParam 1]] [replParam 1] =
      Except.ok (1, [[1000000 / 1000001]]) ∧
    (1 : ℚ) ≤ 1 ∧
    ([[(1000000 : ℚ) / 1000001]] ≠ [[(1 : ℚ)]]) := by
  refine ⟨?_, le_refl 1, by norm_num⟩
  norm_num [clip_grad_norm, get_grad_norm_finite_all_ranks, mapExcept, get_grad_norm.eq_def,
    cfg1, replParam, grads_for_norm, grads_for_norm_tp_duplicated, classifyParam,
    param_is_not_shared, is_tp_param, param_is_not_tensor_parallel_duplicate,
    finiteLocalTotal, tensorNormPowP, Except.map, clipScalePhase, presentGrads,
    appliedClipFactor, clipCoeff, List.filterMap]

/-- C7 (amended): `clip_grad_norm` computes the coefficient
max_norm / (total_norm + 1e-6), multiplies every present gradient in place by
min(coefficient, 1) with no filtering by shared or duplicate status, and
returns the unclipped total norm; and whenever total_norm + 1e-6 <= max_norm
(the norm being nonnegative) the applied factor is exactly 1 and every
gradient is unchanged. -/
theorem c7_clip_formula_and_boundary (root : ℚ → ℚ) (cfg : NormConfig) (p : ℕ) (spmd : Bool)
    (maxNorm totalNorm t : ℚ) (ranks : List (List Param)) (params : List Param) :
    appliedClipFactor maxNorm totalNorm = min (clipCoeff maxNorm totalNorm) 1 ∧
    (get_grad_norm_finite_all_ranks root cfg p spmd ranks = Except.ok t →
      clip_grad_norm root cfg p spmd maxNorm ranks params =
        Except.ok (t, (presentGrads params).map fun g =>
          g.map fun x => x * min (clipCoeff maxNorm t) 1)) ∧
    (0 ≤ totalNorm → totalNorm + 1 / 1000000 ≤ maxNorm →
      appliedClipFactor maxNorm totalNorm = 1 ∧
      clipScalePhase maxNorm totalNorm params = presentGrads params) := by
  have hmin : ∀ m c : ℚ, appliedClipFactor m c = min (clipCoeff m c) 1 := by
    intro m c
    rw [appliedClipFactor]
    rcases lt_or_ge (clipCoeff m c) 1 with h | h
    · rw [if_pos h, min_eq_left h.le]
    · rw [if_neg (not_lt.mpr h), min_eq_right h]
  refine ⟨hmin maxNorm totalNorm, ?_, ?_⟩
  · intro h
    rw [clip_grad_norm, h]
    simp only [clipScalePhase, hmin]
  · intro h0 h1
    have hden : (0 : ℚ) < totalNorm + 1 / 1000000 := by linarith
    have hc : 1 ≤ clipCoeff maxNorm totalNorm := by
      rw [clipCoeff]
      exact (one_le_div hden).mpr h1
    have hfac : appliedClipFactor maxNorm totalNorm = 1 := by
      rw [appliedClipFactor, if_neg (not_lt.mpr hc)]
    refine ⟨hfac, ?_⟩
    simp only [clipScalePhase, hfac]
    simp

/-- C7 witness for the amended claim: max_norm 2, total norm 1 (margin larger
than epsilon): the factor is 1 and the gradients are unchanged. -/
theorem c7_clip_formula_and_boundary_witness :
    appliedClipFactor 2 1 = 1 ∧ clipScalePhase 2 1 [replParam 1] = presentGrads [replParam 1] :=
  (c7_clip_formula_and_boundary id cfg1 1 true 2 1 1 [[replParam 1]] [replParam 1]).2.2
    (by norm_num) (by norm_num)


end Grads
